import Mathlib

/-!
Verification of the credential-generation and test-user-provisioning core of
the `gen1-test-script` in the project-boards repository.

The embedding models:
* `generateUsername` — builds `ci-test-{timestamp}-{hex}` from the current
  timestamp and two random bytes (here explicit parameters);
* `generatePassword` — builds `CiTest1!` plus an 8-character alphanumeric
  suffix from eight random bytes (here an explicit parameter);
* `generateEmail` — pure formatting of `ci-test-{uniqueId}@test.example.com`;
* `createTestUser` — the provisioning sequence: config validation, SignUp,
  AdminConfirmSignUp, returning `{ username, password }`.  Configuration,
  randomness and the Cognito provider's responses are explicit parameters;
  the observable effects (stderr lines, provider calls, exit/return) are
  collected in a `RunResult`.
-/

namespace Gen1TestScript

/-- The digit characters JavaScript `Number.prototype.toString(radix)` uses
(lowercase, as in the source's `b.toString(16)`). -/
def jsDigitChar (n : Nat) : Char :=
  "0123456789abcdefghijklmnopqrstuvwxyz".toList.getD n '0'

/-- Decimal rendering of a natural number, as JavaScript renders the integer
`Date.now()` inside a template literal. -/
def decDigitList (n : Nat) : List Char :=
  if _h : n < 10 then [jsDigitChar n]
  else decDigitList (n / 10) ++ [jsDigitChar (n % 10)]
decreasing_by exact Nat.div_lt_self (by omega) (by omega)

/-- Hexadecimal rendering of a natural number, as JavaScript's
`b.toString(16)` renders a byte. -/
def hexDigitList (n : Nat) : List Char :=
  if _h : n < 16 then [jsDigitChar n]
  else hexDigitList (n / 16) ++ [jsDigitChar (n % 16)]
decreasing_by exact Nat.div_lt_self (by omega) (by omega)

/-- JavaScript `String.prototype.padStart(len, c)`. -/
def padStart (l : List Char) (len : Nat) (c : Char) : List Char :=
  if len ≤ l.length then l else List.replicate (len - l.length) c ++ l

/-- The source's `b.toString(16).padStart(2, '0')` applied to one byte. -/
def byteToHex (b : Nat) : List Char :=
  padStart (hexDigitList b) 2 '0'

/-- Embeds `generateUsername` from `gen1-test-script.ts`: the timestamp read
from `Date.now()` and the two random bytes drawn from
`webcrypto.getRandomValues(new Uint8Array(2))` are explicit parameters. -/
def generateUsername (timestamp b1 b2 : Nat) : String :=
  "ci-test-" ++ String.mk (decDigitList timestamp) ++ "-"
    ++ String.mk (byteToHex b1 ++ byteToHex b2)

/-- The source's `alphanumeric` constant in `generatePassword`. -/
def alphanumeric : String :=
  "ABCDEFGHIJKLMNOPQRSTUVWXYZabcdefghijklmnopqrstuvwxyz0123456789"

/-- Embeds `generatePassword` from `gen1-test-script.ts`: the eight random
bytes drawn from `webcrypto.getRandomValues(new Uint8Array(8))` are an
explicit parameter; each byte indexes `alphanumeric` modulo its length
(the index is always in range, so the `getD` default is never used). -/
def generatePassword (bytes : List Nat) : String :=
  "CiTest1!"
    ++ String.mk (bytes.map fun b => alphanumeric.toList.getD (b % alphanumeric.length) 'A')

/-- Embeds `generateEmail` from `gen1-test-script.ts`. -/
def generateEmail (uniqueId : String) : String :=
  "ci-test-" ++ uniqueId ++ "@test.example.com"

/-- JavaScript `String.prototype.replace` with a string pattern replaces only
the first (leftmost) occurrence; this is its list-level recursion. -/
def replaceFirstList (pat rep : List Char) : List Char → List Char
  | [] => if pat = [] then rep else []
  | a :: l =>
    if pat.isPrefixOf (a :: l) then rep ++ (a :: l).drop pat.length
    else a :: replaceFirstList pat rep l

/-- The source's `generateUsername().replace('ci-test-', '')` uses this
first-occurrence-only replacement. -/
def replaceFirst (s pat rep : String) : String :=
  String.mk (replaceFirstList pat.toList rep.toList s.toList)

/-- The fields of `amplifyconfiguration.json` that `createTestUser` reads;
`none` models an absent field (read as `undefined`). -/
structure AmplifyConfig where
  aws_user_pools_id : Option String
  aws_user_pools_web_client_id : Option String
  aws_cognito_region : Option String
deriving DecidableEq

/-- JavaScript truthiness of a possibly-absent string, as tested by the
source's `if (!userPoolId)` guards: `undefined` and the empty string are
falsy, every other string is truthy. -/
def truthy : Option String → Bool
  | none => false
  | some s => !s.isEmpty

/-- The arguments of the source's `SignUpCommand` (the single element of
`UserAttributes` is the email attribute value). -/
structure SignUpParams where
  ClientId : String
  Username : String
  Password : String
  emailAttrValue : String
deriving DecidableEq

/-- The arguments of the source's `AdminConfirmSignUpCommand`. -/
structure AdminConfirmParams where
  UserPoolId : String
  Username : String
deriving DecidableEq

/-- Observable interactions of `createTestUser` with the Cognito SDK, in
order.  `adminDeleteUser` is in the alphabet so that "no deletion call is
ever issued" is expressible; the code never emits it. -/
inductive ProviderCall where
  | clientInit (region : String)
  | signUp (p : SignUpParams)
  | adminConfirmSignUp (p : AdminConfirmParams)
  | adminDeleteUser (userPoolId username : String)
deriving DecidableEq

/-- How a run of `createTestUser` ends: `process.exit(code)` or a normal
return of `{ username, password }`. -/
inductive RunOutcome where
  | exited (code : Nat)
  | returned (username password : String)
deriving DecidableEq

/-- Everything observable about one run: how it ended, the `console.error`
lines written (arguments joined by a space, as Node prints them), and the
provider interactions attempted. -/
structure RunResult where
  outcome : RunOutcome
  stderr : List String
  calls : List ProviderCall
deriving DecidableEq

/-- The random inputs one run of `createTestUser` draws: the `Date.now()`
timestamp and the two username bytes feeding `generateUsername`, and the
eight bytes feeding `generatePassword`. -/
structure Randomness where
  timestamp : Nat
  usernameByte1 : Nat
  usernameByte2 : Nat
  passwordBytes : List Nat
deriving DecidableEq

/-- The identity provider's responses, one per operation: `Except.ok` models
a resolved SDK call, `Except.error msg` a rejection whose `Error.message`
is `msg`. -/
structure CognitoBehavior where
  signUpResult : SignUpParams → Except String Unit
  adminConfirmResult : AdminConfirmParams → Except String Unit

/-- The fixed failure marker of the source's catch block. -/
def failMarker : String := "❌ Failed to create test user:"

/-- The unique id `createTestUser` derives:
`generateUsername().replace('ci-test-', '')`. -/
def derivedUniqueId (rnd : Randomness) : String :=
  replaceFirst (generateUsername rnd.timestamp rnd.usernameByte1 rnd.usernameByte2)
    "ci-test-" ""

/-- The email `createTestUser` derives from the unique id. -/
def derivedEmail (rnd : Randomness) : String :=
  generateEmail (derivedUniqueId rnd)

/-- The `SignUpCommand` arguments `createTestUser` builds. -/
def derivedSignUpParams (cfg : AmplifyConfig) (rnd : Randomness) : SignUpParams :=
  { ClientId := cfg.aws_user_pools_web_client_id.getD ""
    Username := derivedEmail rnd
    Password := generatePassword rnd.passwordBytes
    emailAttrValue := derivedEmail rnd }

/-- The `AdminConfirmSignUpCommand` arguments `createTestUser` builds. -/
def derivedConfirmParams (cfg : AmplifyConfig) (rnd : Randomness) : AdminConfirmParams :=
  { UserPoolId := cfg.aws_user_pools_id.getD ""
    Username := derivedEmail rnd }

/-- Embeds `createTestUser` from `gen1-test-script.ts`.  The configuration
import, the random draws and the provider are explicit parameters; the
sequence is the source's: validate `aws_user_pools_id`,
`aws_user_pools_web_client_id`, `aws_cognito_region` (each missing/empty
field logs its message and exits 1), then generate credentials, construct
the client, send `SignUpCommand`, send `AdminConfirmSignUpCommand`, and
return `{ username: email, password }`; any rejected call logs the marker
plus the error message and exits 1. -/
def createTestUser (cfg : AmplifyConfig) (rnd : Randomness)
    (cognito : CognitoBehavior) : RunResult :=
  if !truthy cfg.aws_user_pools_id then
    { outcome := .exited 1
      stderr := ["❌ Missing aws_user_pools_id in Amplify configuration"]
      calls := [] }
  else if !truthy cfg.aws_user_pools_web_client_id then
    { outcome := .exited 1
      stderr := ["❌ Missing aws_user_pools_web_client_id in Amplify configuration"]
      calls := [] }
  else if !truthy cfg.aws_cognito_region then
    { outcome := .exited 1
      stderr := ["❌ Missing aws_cognito_region in Amplify configuration"]
      calls := [] }
  else
    let region := cfg.aws_cognito_region.getD ""
    let password := generatePassword rnd.passwordBytes
    let email := derivedEmail rnd
    let signUpP := derivedSignUpParams cfg rnd
    match cognito.signUpResult signUpP with
    | .error msg =>
      { outcome := .exited 1
        stderr := [failMarker ++ " " ++ msg]
        calls := [.clientInit region, .signUp signUpP] }
    | .ok _ =>
      let confirmP := derivedConfirmParams cfg rnd
      match cognito.adminConfirmResult confirmP with
      | .error msg =>
        { outcome := .exited 1
          stderr := [failMarker ++ " " ++ msg]
          calls := [.clientInit region, .signUp signUpP, .adminConfirmSignUp confirmP] }
      | .ok _ =>
        { outcome := .returned email password
          stderr := []
          calls := [.clientInit region, .signUp signUpP, .adminConfirmSignUp confirmP] }

/-! Infrastructure: reading digit strings back, to invert the renderings. -/

/-- Numeric value of a JS digit character (left inverse of `jsDigitChar` on
`0..35`). -/
def digitVal (c : Char) : Nat :=
  if 97 ≤ c.toNat then c.toNat - 87 else c.toNat - 48

/-- Value of a digit string in the given base, most significant first. -/
def digitsVal (base : Nat) (l : List Char) : Nat :=
  l.foldl (fun acc c => acc * base + digitVal c) 0

theorem digitVal_jsDigitChar : ∀ k, k < 36 → digitVal (jsDigitChar k) = k := by
  decide

theorem digitsVal_singleton (base : Nat) (c : Char) :
    digitsVal base [c] = digitVal c := by
  simp [digitsVal]

theorem digitsVal_append_singleton (base : Nat) (l : List Char) (c : Char) :
    digitsVal base (l ++ [c]) = digitsVal base l * base + digitVal c := by
  simp [digitsVal, List.foldl_append]

theorem digitsVal_decDigitList (n : Nat) : digitsVal 10 (decDigitList n) = n := by
  induction n using Nat.strong_induction_on with
  | _ n ih =>
    rw [decDigitList]
    split
    · next h =>
      rw [digitsVal_singleton, digitVal_jsDigitChar n (by omega)]
    · next h =>
      rw [digitsVal_append_singleton,
        ih (n / 10) (Nat.div_lt_self (by omega) (by omega)),
        digitVal_jsDigitChar (n % 10) (by omega)]
      omega

theorem digitsVal_hexDigitList (n : Nat) : digitsVal 16 (hexDigitList n) = n := by
  induction n using Nat.strong_induction_on with
  | _ n ih =>
    rw [hexDigitList]
    split
    · next h =>
      rw [digitsVal_singleton, digitVal_jsDigitChar n (by omega)]
    · next h =>
      rw [digitsVal_append_singleton,
        ih (n / 16) (Nat.div_lt_self (by omega) (by omega)),
        digitVal_jsDigitChar (n % 16) (by omega)]
      omega

theorem digitsVal_replicate_zero (base k : Nat) (l : List Char) :
    digitsVal base (List.replicate k '0' ++ l) = digitsVal base l := by
  induction k with
  | zero => simp
  | succ k ih =>
    have hstep : digitsVal base ('0' :: (List.replicate k '0' ++ l))
        = digitsVal base (List.replicate k '0' ++ l) := by
      simp [digitsVal, digitVal]
    calc digitsVal base (List.replicate (k + 1) '0' ++ l)
        = digitsVal base ('0' :: (List.replicate k '0' ++ l)) := by
          rw [List.replicate_succ, List.cons_append]
      _ = digitsVal base l := by rw [hstep, ih]

theorem digitsVal_padStart (base : Nat) (l : List Char) (len : Nat) :
    digitsVal base (padStart l len '0') = digitsVal base l := by
  unfold padStart
  split
  · rfl
  · exact digitsVal_replicate_zero base _ l

theorem digitsVal_byteToHex (b : Nat) : digitsVal 16 (byteToHex b) = b := by
  rw [byteToHex, digitsVal_padStart, digitsVal_hexDigitList]

theorem decDigitList_injective {m n : Nat}
    (h : decDigitList m = decDigitList n) : m = n := by
  rw [← digitsVal_decDigitList m, h, digitsVal_decDigitList]

theorem byteToHex_injective {m n : Nat}
    (h : byteToHex m = byteToHex n) : m = n := by
  rw [← digitsVal_byteToHex m, h, digitsVal_byteToHex]

theorem hexDigitList_length_le (b : Nat) (h : b < 256) :
    (hexDigitList b).length ≤ 2 := by
  rw [hexDigitList]
  split
  · simp
  · next h16 =>
    rw [hexDigitList]
    have : b / 16 < 16 := by omega
    simp [this]

theorem byteToHex_length (b : Nat) (h : b < 256) : (byteToHex b).length = 2 := by
  have hle := hexDigitList_length_le b h
  rw [byteToHex, padStart]
  split
  · omega
  · simp only [List.length_append, List.length_replicate]
    omega

theorem generateUsername_data (ts b1 b2 : Nat) :
    (generateUsername ts b1 b2).data
      = "ci-test-".data ++ (decDigitList ts ++ '-' :: (byteToHex b1 ++ byteToHex b2)) := by
  simp [generateUsername, String.data_append]

theorem ciTestDashData : ("ci-test-" : String).data = ['c', 'i', '-', 't', 'e', 's', 't', '-'] :=
  rfl

theorem ciTest1BangData : ("CiTest1!" : String).data = ['C', 'i', 'T', 'e', 's', 't', '1', '!'] :=
  rfl

/-- Claim C2: every password `generatePassword` can return (any value of the
eight random bytes) has length at least 8, starts with the fixed prefix
`CiTest1!` followed by an 8-character suffix, and contains an uppercase
letter, a lowercase letter, a digit, and a non-alphanumeric character. -/
theorem generatePassword_policy (bytes : List Nat) (h : bytes.length = 8) :
    8 ≤ (generatePassword bytes).length ∧
    (∃ suffix : String, generatePassword bytes = "CiTest1!" ++ suffix ∧ suffix.length = 8) ∧
    (∃ c ∈ (generatePassword bytes).toList, c.isUpper = true) ∧
    (∃ c ∈ (generatePassword bytes).toList, c.isLower = true) ∧
    (∃ c ∈ (generatePassword bytes).toList, c.isDigit = true) ∧
    (∃ c ∈ (generatePassword bytes).toList, c.isAlphanum = false) := by
  have hdata : (generatePassword bytes).data
      = ['C', 'i', 'T', 'e', 's', 't', '1', '!']
        ++ bytes.map (fun b => alphanumeric.toList.getD (b % alphanumeric.length) 'A') := by
    rw [generatePassword, String.data_append, ciTest1BangData]
  have hlen : (generatePassword bytes).length = 8 + bytes.length := by
    show (generatePassword bytes).data.length = 8 + bytes.length
    rw [hdata]
    simp only [List.length_append, List.length_cons, List.length_nil, List.length_map]
  refine ⟨by omega, ?_, ⟨'C', ?_, rfl⟩, ⟨'i', ?_, rfl⟩, ⟨'1', ?_, rfl⟩, ⟨'!', ?_, rfl⟩⟩
  · refine ⟨String.mk (bytes.map
      (fun b => alphanumeric.toList.getD (b % alphanumeric.length) 'A')), rfl, ?_⟩
    show (bytes.map _).length = 8
    rw [List.length_map, h]
  all_goals show _ ∈ (generatePassword bytes).data
  all_goals rw [hdata]
  all_goals exact List.mem_append_left _ (by decide)

/-- Claim C3: `generateEmail` is pure and deterministic; for every token `t`
it returns exactly `ci-test-` ++ `t` ++ `@test.example.com`; for non-empty
`t` this matches `^ci-test-.+@test\.example\.com$`, and the component
between the fixed head and tail is uniquely `t` itself. -/
theorem generateEmail_spec (t : String) (h : t ≠ "") :
    generateEmail t = "ci-test-" ++ t ++ "@test.example.com" ∧
    (∃ mid : String, mid ≠ "" ∧ generateEmail t = "ci-test-" ++ mid ++ "@test.example.com") ∧
    ∀ mid : String, generateEmail t = "ci-test-" ++ mid ++ "@test.example.com" → mid = t := by
  refine ⟨rfl, ⟨t, h, rfl⟩, ?_⟩
  intro mid hmid
  have hd := congrArg String.data hmid
  simp only [generateEmail, String.data_append, List.append_assoc] at hd
  have h2 : t.data ++ ("@test.example.com" : String).data
      = mid.data ++ ("@test.example.com" : String).data := by
    simpa using hd
  exact (String.ext (List.append_inj' h2 rfl).1).symm

/-- Claim C8: the username format `ci-test-{timestamp}-{hex}` is injective in
the pair (timestamp, two random bytes): two calls of `generateUsername`
whose underlying inputs are not both identical produce distinct strings,
so any N ≥ 2 usernames from calls with distinct inputs are pairwise
distinct. -/
theorem generateUsername_injective (ts ts' b1 b1' b2 b2' : Nat)
    (hb1 : b1 < 256) (hb2 : b2 < 256) (hb1' : b1' < 256) (hb2' : b2' < 256)
    (heq : generateUsername ts b1 b2 = generateUsername ts' b1' b2') :
    ts = ts' ∧ b1 = b1' ∧ b2 = b2' := by
  have hd := congrArg String.data heq
  rw [generateUsername_data, generateUsername_data] at hd
  have h1 : decDigitList ts ++ '-' :: (byteToHex b1 ++ byteToHex b2)
      = decDigitList ts' ++ '-' :: (byteToHex b1' ++ byteToHex b2') := by
    simpa using hd
  have hlen : ('-' :: (byteToHex b1 ++ byteToHex b2)).length
      = ('-' :: (byteToHex b1' ++ byteToHex b2')).length := by
    simp [byteToHex_length b1 hb1, byteToHex_length b2 hb2,
      byteToHex_length b1' hb1', byteToHex_length b2' hb2']
  obtain ⟨hts, hrest⟩ := List.append_inj' h1 hlen
  have hhex : byteToHex b1 ++ byteToHex b2 = byteToHex b1' ++ byteToHex b2' := by
    injection hrest
  obtain ⟨hx1, hx2⟩ := List.append_inj hhex
    (by rw [byteToHex_length b1 hb1, byteToHex_length b1' hb1'])
  exact ⟨decDigitList_injective hts, byteToHex_injective hx1, byteToHex_injective hx2⟩

/-- Character predicate for C9: lowercase ASCII letter, decimal digit, or
hyphen. -/
def usernameChar (c : Char) : Prop :=
  ('a' ≤ c ∧ c ≤ 'z') ∨ ('0' ≤ c ∧ c ≤ '9') ∨ c = '-'

theorem decDigitList_chars (n : Nat) : ∀ c ∈ decDigitList n, '0' ≤ c ∧ c ≤ '9' := by
  have hdig : ∀ k, k < 10 → '0' ≤ jsDigitChar k ∧ jsDigitChar k ≤ '9' := by decide
  induction n using Nat.strong_induction_on with
  | _ n ih =>
    rw [decDigitList]
    split
    · next h =>
      intro c hc
      rw [List.mem_singleton] at hc
      exact hc ▸ hdig n (by omega)
    · next h =>
      intro c hc
      rcases List.mem_append.mp hc with hc | hc
      · exact ih (n / 10) (Nat.div_lt_self (by omega) (by omega)) c hc
      · rw [List.mem_singleton] at hc
        exact hc ▸ hdig (n % 10) (by omega)

theorem hexDigitList_chars (n : Nat) :
    ∀ c ∈ hexDigitList n, ('a' ≤ c ∧ c ≤ 'z') ∨ ('0' ≤ c ∧ c ≤ '9') := by
  have hdig : ∀ k, k < 16 →
      ('a' ≤ jsDigitChar k ∧ jsDigitChar k ≤ 'z') ∨
        ('0' ≤ jsDigitChar k ∧ jsDigitChar k ≤ '9') := by decide
  induction n using Nat.strong_induction_on with
  | _ n ih =>
    rw [hexDigitList]
    split
    · next h =>
      intro c hc
      rw [List.mem_singleton] at hc
      exact hc ▸ hdig n (by omega)
    · next h =>
      intro c hc
      rcases List.mem_append.mp hc with hc | hc
      · exact ih (n / 16) (Nat.div_lt_self (by omega) (by omega)) c hc
      · rw [List.mem_singleton] at hc
        exact hc ▸ hdig (n % 16) (by omega)

theorem byteToHex_chars (b : Nat) :
    ∀ c ∈ byteToHex b, ('a' ≤ c ∧ c ≤ 'z') ∨ ('0' ≤ c ∧ c ≤ '9') := by
  intro c hc
  rw [byteToHex, padStart] at hc
  split at hc
  · exact hexDigitList_chars b c hc
  · rcases List.mem_append.mp hc with hc | hc
    · rw [List.eq_of_mem_replicate hc]
      right
      exact ⟨by decide, by decide⟩
    · exact hexDigitList_chars b c hc

/-- Claim C9: every string `generateUsername` can return is non-empty and
consists only of lowercase ASCII letters, decimal digits, and hyphens, so
it needs no escaping in Cognito's username grammar. -/
theorem generateUsername_wellformed (ts b1 b2 : Nat) :
    generateUsername ts b1 b2 ≠ "" ∧
    ∀ c ∈ (generateUsername ts b1 b2).toList, usernameChar c := by
  constructor
  · intro h
    have hd := congrArg String.data h
    rw [generateUsername_data] at hd
    rw [ciTestDashData] at hd
    exact absurd hd (by simp)
  · intro c hc
    rw [show (generateUsername ts b1 b2).toList = (generateUsername ts b1 b2).data from rfl,
      generateUsername_data, ciTestDashData] at hc
    rcases List.mem_append.mp hc with hc | hc
    · revert hc
      have : ∀ c ∈ ['c', 'i', '-', 't', 'e', 's', 't', '-'], usernameChar c := by
        unfold usernameChar
        decide
      exact this c
    · rcases List.mem_append.mp hc with hc | hc
      · have := decDigitList_chars ts c hc
        exact Or.inr (Or.inl this)
      · rcases List.mem_cons.mp hc with hc | hc
        · exact Or.inr (Or.inr hc)
        · rcases List.mem_append.mp hc with hc | hc
          · rcases byteToHex_chars b1 c hc with h | h
            · exact Or.inl h
            · exact Or.inr (Or.inl h)
          · rcases byteToHex_chars b2 c hc with h | h
            · exact Or.inl h
            · exact Or.inr (Or.inl h)

theorem replaceFirstList_cancel (pat rep l : List Char) :
    replaceFirstList pat rep (pat ++ l) = rep ++ l := by
  cases pat with
  | nil =>
    cases l with
    | nil => simp [replaceFirstList]
    | cons a l' => simp [replaceFirstList, List.isPrefixOf]
  | cons p ps =>
    show replaceFirstList (p :: ps) rep (p :: (ps ++ l)) = rep ++ l
    rw [replaceFirstList]
    have hpre : (p :: ps).isPrefixOf (p :: (ps ++ l)) = true := by
      rw [show p :: (ps ++ l) = (p :: ps) ++ l from rfl, List.isPrefixOf_iff_prefix]
      exact List.prefix_append _ _
    rw [if_pos hpre, show p :: (ps ++ l) = (p :: ps) ++ l from rfl, List.drop_left]

/-- Claim C10: inside `createTestUser`, stripping the first occurrence of
`ci-test-` from `generateUsername()`'s output and feeding the remainder to
`generateEmail` reproduces the full username with `@test.example.com`
appended, for every value of the underlying timestamp and random bytes. -/
theorem generateEmail_generateUsername_roundtrip (ts b1 b2 : Nat) :
    generateEmail (replaceFirst (generateUsername ts b1 b2) "ci-test-" "")
      = generateUsername ts b1 b2 ++ "@test.example.com" := by
  apply String.ext
  have hstrip : (replaceFirst (generateUsername ts b1 b2) "ci-test-" "").data
      = decDigitList ts ++ '-' :: (byteToHex b1 ++ byteToHex b2) := by
    show (replaceFirstList ("ci-test-" : String).data [] (generateUsername ts b1 b2).data)
        = _
    rw [generateUsername_data, replaceFirstList_cancel]
    rfl
  rw [show (generateEmail (replaceFirst (generateUsername ts b1 b2) "ci-test-" "")).data
      = ("ci-test-" : String).data
        ++ ((replaceFirst (generateUsername ts b1 b2) "ci-test-" "").data
          ++ ("@test.example.com" : String).data) from by
    simp [generateEmail, String.data_append]]
  rw [String.data_append, generateUsername_data, hstrip]
  simp

/-- Claim C4: with the pool identifier or the client identifier missing or
empty, `createTestUser` exits with status 1, writes the descriptive error
naming the missing field (the pool check runs first), and makes no provider
interaction at all — no client construction and no network call. -/
theorem createTestUser_missing_pool_or_client (cfg : AmplifyConfig) (rnd : Randomness)
    (cognito : CognitoBehavior)
    (h : truthy cfg.aws_user_pools_id = false ∨
      truthy cfg.aws_user_pools_web_client_id = false) :
    (createTestUser cfg rnd cognito).outcome = .exited 1 ∧
    (createTestUser cfg rnd cognito).calls = [] ∧
    (createTestUser cfg rnd cognito).stderr
      = [if truthy cfg.aws_user_pools_id = false
         then "❌ Missing aws_user_pools_id in Amplify configuration"
         else "❌ Missing aws_user_pools_web_client_id in Amplify configuration"] := by
  cases hp : truthy cfg.aws_user_pools_id with
  | false => simp [createTestUser, hp]
  | true =>
    have hc : truthy cfg.aws_user_pools_web_client_id = false := by
      rcases h with h | h
      · rw [hp] at h
        cases h
      · exact h
    simp [createTestUser, hp, hc]

/-- Claim C7 (amended): the region field is in fact validated exactly like
the other two fields — with all of pool and client identifier present but
the region missing or empty, `createTestUser` logs its own descriptive
region error and exits with status 1 before any provider interaction. -/
theorem createTestUser_missing_region (cfg : AmplifyConfig) (rnd : Randomness)
    (cognito : CognitoBehavior)
    (hp : truthy cfg.aws_user_pools_id = true)
    (hc : truthy cfg.aws_user_pools_web_client_id = true)
    (hr : truthy cfg.aws_cognito_region = false) :
    createTestUser cfg rnd cognito =
      { outcome := .exited 1
        stderr := ["❌ Missing aws_cognito_region in Amplify configuration"]
        calls := [] } := by
  simp [createTestUser, hp, hc, hr]

/-- Claim C7 (counterexample to the claim as stated): on a configuration
whose region field is absent, `createTestUser` does check the region with
its own descriptive error and exits 1 before proceeding, contradicting the
claim that no such explicit region validation exists. -/
theorem createTestUser_region_is_validated :
    createTestUser
      { aws_user_pools_id := some "us-east-1_TestPool"
        aws_user_pools_web_client_id := some "test-client-id-123"
        aws_cognito_region := none }
      { timestamp := 1700000000000, usernameByte1 := 5, usernameByte2 := 255
        passwordBytes := [0, 1, 2, 3, 4, 5, 6, 7] }
      { signUpResult := fun _ => .ok (), adminConfirmResult := fun _ => .ok () } =
      { outcome := .exited 1
        stderr := ["❌ Missing aws_cognito_region in Amplify configuration"]
        calls := [] } := by
  rfl

/-- Claim C5: with all required fields present and the SignUp call rejected,
`createTestUser` logs the provider's message behind the fixed failure
marker, exits with status 1, sends SignUp exactly once (no retry), and
never attempts AdminConfirmSignUp. -/
theorem createTestUser_signUp_failure (cfg : AmplifyConfig) (rnd : Randomness)
    (cognito : CognitoBehavior) (msg : String)
    (hp : truthy cfg.aws_user_pools_id = true)
    (hc : truthy cfg.aws_user_pools_web_client_id = true)
    (hr : truthy cfg.aws_cognito_region = true)
    (hfail : cognito.signUpResult (derivedSignUpParams cfg rnd) = .error msg) :
    createTestUser cfg rnd cognito =
      { outcome := .exited 1
        stderr := [failMarker ++ " " ++ msg]
        calls := [.clientInit (cfg.aws_cognito_region.getD "")
                  , .signUp (derivedSignUpParams cfg rnd)] } ∧
    ∀ q, ProviderCall.adminConfirmSignUp q ∉ (createTestUser cfg rnd cognito).calls := by
  have hmain : createTestUser cfg rnd cognito =
      { outcome := .exited 1
        stderr := [failMarker ++ " " ++ msg]
        calls := [.clientInit (cfg.aws_cognito_region.getD "")
                  , .signUp (derivedSignUpParams cfg rnd)] } := by
    simp [createTestUser, hp, hc, hr, hfail]
  refine ⟨hmain, ?_⟩
  intro q
  rw [hmain]
  simp

/-- Claim C6: with SignUp succeeding and AdminConfirmSignUp rejected,
`createTestUser` applies the same contract — marker-prefixed log of the
provider's message and exit status 1 — and performs no cleanup: no deletion
call is ever issued, leaving the user registered but unconfirmed. -/
theorem createTestUser_confirm_failure (cfg : AmplifyConfig) (rnd : Randomness)
    (cognito : CognitoBehavior) (msg : String)
    (hp : truthy cfg.aws_user_pools_id = true)
    (hc : truthy cfg.aws_user_pools_web_client_id = true)
    (hr : truthy cfg.aws_cognito_region = true)
    (hok : cognito.signUpResult (derivedSignUpParams cfg rnd) = .ok ())
    (hfail : cognito.adminConfirmResult (derivedConfirmParams cfg rnd) = .error msg) :
    createTestUser cfg rnd cognito =
      { outcome := .exited 1
        stderr := [failMarker ++ " " ++ msg]
        calls := [.clientInit (cfg.aws_cognito_region.getD "")
                  , .signUp (derivedSignUpParams cfg rnd)
                  , .adminConfirmSignUp (derivedConfirmParams cfg rnd)] } ∧
    ∀ u n, ProviderCall.adminDeleteUser u n ∉ (createTestUser cfg rnd cognito).calls := by
  have hmain : createTestUser cfg rnd cognito =
      { outcome := .exited 1
        stderr := [failMarker ++ " " ++ msg]
        calls := [.clientInit (cfg.aws_cognito_region.getD "")
                  , .signUp (derivedSignUpParams cfg rnd)
                  , .adminConfirmSignUp (derivedConfirmParams cfg rnd)] } := by
    simp [createTestUser, hp, hc, hr, hok, hfail]
  refine ⟨hmain, ?_⟩
  intro u n
  rw [hmain]
  simp

/-- Claim C1: with all required fields present and both provider calls
succeeding, `createTestUser` returns `{ username := email, password }`,
where the email is `ci-test-` ++ token ++ `@test.example.com` for the token
stripped from `generateUsername`'s output, the password is the generated
one, and that same email string is the `Username` of both the SignUp and
the AdminConfirmSignUp call. -/
theorem createTestUser_success (cfg : AmplifyConfig) (rnd : Randomness)
    (cognito : CognitoBehavior)
    (hp : truthy cfg.aws_user_pools_id = true)
    (hc : truthy cfg.aws_user_pools_web_client_id = true)
    (hr : truthy cfg.aws_cognito_region = true)
    (hs : cognito.signUpResult (derivedSignUpParams cfg rnd) = .ok ())
    (ha : cognito.adminConfirmResult (derivedConfirmParams cfg rnd) = .ok ()) :
    createTestUser cfg rnd cognito =
      { outcome := .returned (derivedEmail rnd) (generatePassword rnd.passwordBytes)
        stderr := []
        calls := [.clientInit (cfg.aws_cognito_region.getD "")
                  , .signUp (derivedSignUpParams cfg rnd)
                  , .adminConfirmSignUp (derivedConfirmParams cfg rnd)] } ∧
    derivedEmail rnd = "ci-test-" ++ derivedUniqueId rnd ++ "@test.example.com" ∧
    (derivedSignUpParams cfg rnd).Username = derivedEmail rnd ∧
    (derivedConfirmParams cfg rnd).Username = derivedEmail rnd ∧
    (derivedSignUpParams cfg rnd).Password = generatePassword rnd.passwordBytes := by
  refine ⟨?_, rfl, rfl, rfl, rfl⟩
  simp [createTestUser, hp, hc, hr, hs, ha]

/-! Concrete fixtures used to instantiate the theorems above. -/

/-- Configuration with all three fields present (the unit tests' values). -/
def cfgOk : AmplifyConfig :=
  { aws_user_pools_id := some "us-east-1_TestPool"
    aws_user_pools_web_client_id := some "test-client-id-123"
    aws_cognito_region := some "us-east-1" }

/-- Configuration whose pool identifier field is absent. -/
def cfgNoPool : AmplifyConfig :=
  { aws_user_pools_id := none
    aws_user_pools_web_client_id := some "test-client-id-123"
    aws_cognito_region := some "us-east-1" }

/-- Configuration whose region field is absent. -/
def cfgNoRegion : AmplifyConfig :=
  { aws_user_pools_id := some "us-east-1_TestPool"
    aws_user_pools_web_client_id := some "test-client-id-123"
    aws_cognito_region := none }

/-- A fixed draw of the random inputs. -/
def rnd0 : Randomness :=
  { timestamp := 1700000000000, usernameByte1 := 5, usernameByte2 := 255
    passwordBytes := [0, 1, 2, 3, 4, 5, 6, 7] }

/-- A provider accepting both operations. -/
def cognitoAllOk : CognitoBehavior :=
  { signUpResult := fun _ => .ok (), adminConfirmResult := fun _ => .ok () }

/-- A provider rejecting SignUp (the unit tests' simulated failure). -/
def cognitoSignUpRejects : CognitoBehavior :=
  { signUpResult := fun _ => .error "User already exists"
    adminConfirmResult := fun _ => .ok () }

/-- A provider accepting SignUp but rejecting AdminConfirmSignUp. -/
def cognitoConfirmRejects : CognitoBehavior :=
  { signUpResult := fun _ => .ok ()
    adminConfirmResult := fun _ => .error "User cannot be confirmed" }

/-- Witness for C1: the success theorem applied at the concrete fixtures. -/
theorem createTestUser_success_witness :
    (createTestUser cfgOk rnd0 cognitoAllOk).outcome
      = .returned (derivedEmail rnd0) (generatePassword rnd0.passwordBytes) := by
  rw [(createTestUser_success cfgOk rnd0 cognitoAllOk (by decide) (by decide) (by decide)
    rfl rfl).1]

/-- Witness for C2: the password policy theorem applied at a concrete byte
list. -/
theorem generatePassword_policy_witness :
    8 ≤ (generatePassword [0, 1, 2, 3, 4, 5, 6, 7]).length :=
  (generatePassword_policy [0, 1, 2, 3, 4, 5, 6, 7] rfl).1

/-- Witness for C3: the email formatting theorem applied at a concrete
token. -/
theorem generateEmail_spec_witness :
    generateEmail "1700000000000-05ff"
      = "ci-test-" ++ "1700000000000-05ff" ++ "@test.example.com" :=
  (generateEmail_spec "1700000000000-05ff" (by decide)).1

/-- Witness for C4: the validation theorem applied at a configuration with
the pool identifier absent. -/
theorem createTestUser_missing_pool_or_client_witness :
    (createTestUser cfgNoPool rnd0 cognitoAllOk).outcome = .exited 1 ∧
    (createTestUser cfgNoPool rnd0 cognitoAllOk).calls = [] := by
  have h := createTestUser_missing_pool_or_client cfgNoPool rnd0 cognitoAllOk
    (Or.inl (by decide))
  exact ⟨h.1, h.2.1⟩

/-- Witness for C5: the SignUp-failure theorem applied at the concrete
fixtures with a rejecting provider. -/
theorem createTestUser_signUp_failure_witness :
    (createTestUser cfgOk rnd0 cognitoSignUpRejects).stderr
      = [failMarker ++ " " ++ "User already exists"] ∧
    (createTestUser cfgOk rnd0 cognitoSignUpRejects).calls
      = [.clientInit "us-east-1", .signUp (derivedSignUpParams cfgOk rnd0)] := by
  have h := createTestUser_signUp_failure cfgOk rnd0 cognitoSignUpRejects
    "User already exists" (by decide) (by decide) (by decide) rfl
  rw [h.1]
  exact ⟨rfl, rfl⟩

/-- Witness for C6: the AdminConfirmSignUp-failure theorem applied at the
concrete fixtures. -/
theorem createTestUser_confirm_failure_witness :
    (createTestUser cfgOk rnd0 cognitoConfirmRejects).stderr
      = [failMarker ++ " " ++ "User cannot be confirmed"] ∧
    ProviderCall.adminDeleteUser "us-east-1_TestPool" (derivedEmail rnd0)
      ∉ (createTestUser cfgOk rnd0 cognitoConfirmRejects).calls := by
  have h := createTestUser_confirm_failure cfgOk rnd0 cognitoConfirmRejects
    "User cannot be confirmed" (by decide) (by decide) (by decide) rfl rfl
  exact ⟨by rw [h.1], h.2 "us-east-1_TestPool" (derivedEmail rnd0)⟩

/-- Witness for C7 (amended): the region-validation theorem applied at the
concrete region-free configuration. -/
theorem createTestUser_missing_region_witness :
    createTestUser cfgNoRegion rnd0 cognitoAllOk =
      { outcome := .exited 1
        stderr := ["❌ Missing aws_cognito_region in Amplify configuration"]
        calls := [] } :=
  createTestUser_missing_region cfgNoRegion rnd0 cognitoAllOk
    (by decide) (by decide) (by decide)

/-- Witness for C8: the injectivity theorem applied at a concrete timestamp
and byte pair. -/
theorem generateUsername_injective_witness :
    (5 : Nat) < 256 ∧ (255 : Nat) < 256 ∧
    ((1700000000000 : Nat) = 1700000000000 ∧ (5 : Nat) = 5 ∧ (255 : Nat) = 255) :=
  ⟨by decide, by decide,
    generateUsername_injective 1700000000000 1700000000000 5 5 255 255
      (by decide) (by decide) (by decide) (by decide) rfl⟩

end Gen1TestScript
